import Mathlib

/-!
# Verification of the safe-cookie analysis pipeline

Shallow embedding of the scoring, grading, validation, retry and
error-classification logic of the safe-cookie repository, together with
theorems settling the frozen claims about it.

JavaScript numbers are modelled as rationals (`ℚ`) where fractional
values can occur and as integers (`ℤ`) where the source only ever holds
integers.  `Math.round` is modelled by `jsRound` (round half toward
positive infinity, which is what JavaScript does).  JavaScript division
by zero yields `NaN`, and every comparison against `NaN` is false; the
one place the source can divide by zero is guarded by `ratioLtGuard`,
which reproduces exactly that comparison behaviour.
-/

namespace SafeCookie

/-- JavaScript `Math.round`: round half toward positive infinity. -/
def jsRound (x : ℚ) : ℤ := (x + 1/2).floor

/-- `Math.max(0, Math.min(100, x))` on integers. -/
def clampZ (x : ℤ) : ℤ := max 0 (min 100 x)

/-- `Math.max(0, Math.min(100, x))` on rationals. -/
def clampQ (x : ℚ) : ℚ := max 0 (min 100 x)

/-! ## String helpers

The source uses JavaScript string primitives (`startsWith`, `includes`,
`split`, `trim`, `toLowerCase`).  They are modelled on the character
list underlying a Lean `String`; only ASCII case folding is needed for
the inputs the claims concern. -/

/-- JavaScript `hay.includes(needle)` on character lists. -/
def containsSub (hay needle : List Char) : Bool :=
  needle.isPrefixOf hay ||
    match hay with
    | [] => false
    | _ :: t => containsSub t needle

/-- JavaScript `s.startsWith(p)`. -/
def strStartsWith (s p : String) : Bool := p.data.isPrefixOf s.data

/-- JavaScript `s.includes(sub)`. -/
def strContains (s sub : String) : Bool := containsSub s.data sub.data

/-- JavaScript `s.toLowerCase()` (ASCII). -/
def strToLower (s : String) : String := ⟨s.data.map Char.toLower⟩

/-- JavaScript whitespace trimmed by `String.prototype.trim`. -/
def isJsWs (c : Char) : Bool := c = ' ' || c = '\t' || c = '\n' || c = '\r'

/-- JavaScript `s.trim()`. -/
def strTrim (s : String) : String :=
  ⟨((s.data.dropWhile isJsWs).reverse.dropWhile isJsWs).reverse⟩

/-- JavaScript `s.length`. -/
def strLen (s : String) : Nat := s.data.length

/-- Split a character list on a separator character (`s.split(sep)`). -/
def splitOnCharAux (sep : Char) : List Char → List (List Char)
  | [] => [[]]
  | c :: t =>
    match splitOnCharAux sep t with
    | [] => [[c]]
    | h :: rs => if c = sep then [] :: h :: rs else (c :: h) :: rs

/-- JavaScript `s.split(sep)` for a one-character separator. -/
def strSplitOn (s : String) (sep : Char) : List String :=
  (splitOnCharAux sep s.data).map String.mk

/-! ## Severities and grades -/

/-- The closed severity set used by the findings
(`critical`, `high`, `medium`, `low`, `info`, `warning`, plus the
`error` severity attached to failed-analyzer placeholders). -/
inductive Severity
  | critical | high | medium | low | info | warning | analysisError
deriving DecidableEq, Repr

/-- Letter grades. -/
inductive Grade
  | F | D | C | B | A | APlus
deriving DecidableEq, Repr

/-- Position of a grade in the order F < D < C < B < A < A+. -/
def Grade.rank : Grade → Nat
  | .F => 0
  | .D => 1
  | .C => 2
  | .B => 3
  | .A => 4
  | .APlus => 5

/-! ## The three `_calculateGrade` functions

`AnalysisController._calculateGrade`, `CookieAnalyzer._calculateGrade`
and `HeaderAnalyzer._calculateGrade` are each translated from their own
source site. -/

namespace AnalysisController

/-- `AnalysisController._calculateGrade` (controller source, lines 839-846). -/
def calculateGrade (score : ℚ) : Grade :=
  if score ≥ 90 then .APlus
  else if score ≥ 80 then .A
  else if score ≥ 70 then .B
  else if score ≥ 60 then .C
  else if score ≥ 50 then .D
  else .F

end AnalysisController

namespace CookieAnalyzer

/-- `CookieAnalyzer._calculateGrade` (cookieAnalyzer.js lines 421-428). -/
def calculateGrade (score : ℚ) : Grade :=
  if score ≥ 90 then .APlus
  else if score ≥ 80 then .A
  else if score ≥ 70 then .B
  else if score ≥ 60 then .C
  else if score ≥ 50 then .D
  else .F

end CookieAnalyzer

namespace HeaderAnalyzer

/-- `HeaderAnalyzer._calculateGrade` (headerAnalyzer source, lines 526-533). -/
def calculateGrade (score : ℚ) : Grade :=
  if score ≥ 90 then .APlus
  else if score ≥ 80 then .A
  else if score ≥ 70 then .B
  else if score ≥ 60 then .C
  else if score ≥ 50 then .D
  else .F

end HeaderAnalyzer

/-! ## Findings and the aggregation stage

`AnalysisController._consolidateAnalysis` flattens the per-category
vulnerability lists; `_calculateOverallScore` computes the weighted
overall score.  Only the `type` and `severity` fields of a finding feed
any computation verified here, so the long message strings carried by
the source objects are not modelled. -/

/-- A vulnerability finding (`type` and `severity`). -/
structure Vuln where
  vulnType : String
  severity : Severity
deriving DecidableEq, Repr

/-- One category result as consumed by the aggregation stage. -/
structure CategoryResult where
  score : ℚ
  vulnerabilities : List Vuln
deriving Repr

/-- The fields of the consolidated analysis record read by
`_calculateOverallScore`. -/
structure AnalysisRec where
  ssl : CategoryResult
  headers : CategoryResult
  cookies : CategoryResult
  html : CategoryResult
  isHttps : Bool
deriving Repr

namespace AnalysisController

/-- `_consolidateAnalysis`: `analysis.vulnerabilities` is the
concatenation of the four category vulnerability lists. -/
def consolidatedVulnerabilities (a : AnalysisRec) : List Vuln :=
  a.ssl.vulnerabilities ++ a.headers.vulnerabilities ++
    a.cookies.vulnerabilities ++ a.html.vulnerabilities

/-- `analysis.vulnerabilities.filter(v => v.severity === 'critical').length`. -/
def criticalCount (a : AnalysisRec) : ℕ :=
  ((consolidatedVulnerabilities a).filter
    (fun v => v.severity == Severity.critical)).length

/-- `AnalysisController._calculateOverallScore` (controller lines 798-833).
The weight loop visits the categories in object order ssl, headers,
cookies, html; the weighted sum is penalized by
`Math.min(criticalCount * 10, 30)`, by 15 more when `isHttps` is false,
and the result is `Math.max(0, Math.min(100, Math.round(...)))`.
(`ssl.score || 0` is the score itself for every actual number; the
`|| 0` default only matters for absent fields, which the record model
rules out.) -/
def calculateOverallScore (a : AnalysisRec) : ℤ :=
  let weighted : ℚ :=
    a.ssl.score * (25/100) + a.headers.score * (35/100) +
      a.cookies.score * (25/100) + a.html.score * (15/100)
  let afterCritical : ℚ := weighted - min ((criticalCount a : ℚ) * 10) 30
  let afterHttps : ℚ := if a.isHttps then afterCritical else afterCritical - 15
  clampZ (jsRound afterHttps)

end AnalysisController

/-- The overall-score formula exactly as the claim words it:
`0.25*s_ssl + 0.35*s_headers + 0.25*s_cookies + 0.15*s_html`
minus `min(30, 10 × criticalFindingCount)`, minus 15 when not HTTPS,
the result clamped into [0,100] — with no rounding step.  Stated from
the spec sentence for comparison with `calculateOverallScore`. -/
def claimOverallScore (sSsl sHeaders sCookies sHtml : ℚ)
    (criticalFindings : ℕ) (isHttps : Bool) : ℚ :=
  clampQ ((25/100) * sSsl + (35/100) * sHeaders + (25/100) * sCookies +
    (15/100) * sHtml - min 30 (10 * (criticalFindings : ℚ)) -
    (if isHttps then 0 else 15))

/-- The claim formula amended with the rounding the source performs
(round to nearest, ties toward +∞, before clamping). -/
def claimOverallScoreRounded (sSsl sHeaders sCookies sHtml : ℚ)
    (criticalFindings : ℕ) (isHttps : Bool) : ℤ :=
  clampZ (jsRound ((25/100) * sSsl + (35/100) * sHeaders +
    (25/100) * sCookies + (15/100) * sHtml -
    min 30 (10 * (criticalFindings : ℚ)) - (if isHttps then 0 else 15)))

/-- Concrete analysis separating the spec formula from the code:
category scores 0 / 0 / 0 / 3, no findings, HTTPS. -/
def roundingAnalysis : AnalysisRec :=
  { ssl := ⟨0, []⟩, headers := ⟨0, []⟩, cookies := ⟨0, []⟩,
    html := ⟨3, []⟩, isHttps := true }



/-! ## The HTML analyzer (`AnalysisController._analyzeHTML`)

The markup traversal itself is done by the cheerio library; the
analyzer consumes the extracted form, script and meta facts, which are
therefore the model inputs.  Every score subtraction in the source
accompanies exactly one pushed vulnerability, so the score is 80 minus
the per-type penalty of each emitted vulnerability. -/

/-- A form as seen by `_analyzeHTML`: its (raw) `method` attribute and
whether it contains an `input[type=password]`. -/
structure HtmlForm where
  method : Option String
  hasPasswordField : Bool
deriving DecidableEq, Repr

/-- The facts `_analyzeHTML` extracts from the markup. -/
structure HtmlInput where
  forms : List HtmlForm
  scriptSrcs : List (Option String)
  hasCharset : Bool
deriving DecidableEq, Repr

namespace AnalysisController

/-- `$form.attr('method')?.toLowerCase() || 'get'`. -/
def effectiveMethod (m : Option String) : String :=
  match m with
  | none => "get"
  | some s => if strToLower s = "" then "get" else strToLower s

/-- Vulnerabilities pushed for one form (password field without HTTPS
is critical; password field in a GET form is critical). -/
def formVulns (htmlUrl : String) (f : HtmlForm) : List Vuln :=
  (if f.hasPasswordField ∧ ¬ strStartsWith htmlUrl "https://" then
    [⟨"form_password_no_https", .critical⟩] else []) ++
  (if f.hasPasswordField ∧ effectiveMethod f.method = "get" then
    [⟨"password_in_get", .critical⟩] else [])

/-- Vulnerabilities pushed for one script tag carrying a (truthy)
`src`: an external script loaded over plain HTTP is a high finding. -/
def scriptVulns (htmlUrl src : String) : List Vuln :=
  let isExternal := ¬ strStartsWith src "/" ∧ ¬ strStartsWith src htmlUrl
  let isHttpsSrc := strStartsWith src "https://"
  if isExternal ∧ ¬ isHttpsSrc ∧ strStartsWith src "http://" then
    [⟨"script_http_external", .high⟩]
  else []

/-- The score subtraction attached to each HTML vulnerability type
(−20, −25, −15, −5 at the respective push sites). -/
def htmlVulnPenalty (v : Vuln) : ℤ :=
  if v.vulnType = "form_password_no_https" then 20
  else if v.vulnType = "password_in_get" then 25
  else if v.vulnType = "script_http_external" then 15
  else if v.vulnType = "missing_charset" then 5
  else 0

/-- The HTML analysis fields the claims concern (the source score is
integer valued: 80 minus integer penalties). -/
structure HtmlAnalysis where
  score : ℤ
  vulnerabilities : List Vuln
deriving DecidableEq, Repr

/-- The score and vulnerability list produced by `_analyzeHTML`
(controller lines 628-727): base score 80, penalized per finding,
never clamped. -/
def analyzeHTML (htmlUrl : String) (input : HtmlInput) : HtmlAnalysis :=
  let fromForms := (input.forms.map (formVulns htmlUrl)).flatten
  let fromScripts :=
    (input.scriptSrcs.filterMap (fun src? =>
      match src? with
      | some src => if src = "" then none else some (scriptVulns htmlUrl src)
      | none => none)).flatten
  let fromCharset :=
    if ¬ input.hasCharset then [Vuln.mk "missing_charset" .low] else []
  let vulns := fromForms ++ fromScripts ++ fromCharset
  { score := 80 - (vulns.map htmlVulnPenalty).sum,
    vulnerabilities := vulns }

end AnalysisController

/-! ## The SSL score (`SSLAnalyzer._calculateSSLScore`) -/

/-- The fields of the SSL analysis record read by
`_calculateSSLScore`: validity, the four vulnerability lists (the three
component lists may be absent), the negotiated protocol version and the
cipher bit strength. -/
structure SslAnalysisRec where
  isValid : Bool
  vulnerabilities : List Vuln
  certificateVulns : Option (List Vuln)
  protocolVulns : Option (List Vuln)
  cipherVulns : Option (List Vuln)
  protocolVersion : Option String
  cipherBits : Option ℤ
deriving Repr

namespace SSLAnalyzer

/-- The top-level severity penalties of `_calculateSSLScore`. -/
def severityPenaltyMain : Severity → ℤ
  | .critical => 25
  | .high => 15
  | .medium => 8
  | .low => 3
  | .warning => 2
  | _ => 0

/-- The certificate-component severity penalties. -/
def severityPenaltyCert : Severity → ℤ
  | .critical => 20
  | .high => 12
  | .medium => 6
  | .warning => 2
  | _ => 0

/-- The protocol/cipher-component severity penalties. -/
def severityPenaltyComponent : Severity → ℤ
  | .critical => 20
  | .high => 12
  | .medium => 6
  | _ => 0

/-- `SSLAnalyzer._calculateSSLScore` (sslAnalyzer.js lines 533-597):
start at 100 (30 when the certificate is not valid), subtract the
severity penalties of all four vulnerability lists, add 5 for a
TLS 1.3 protocol version and 3 for a cipher of at least 256 bits, and
clamp with `Math.max(0, Math.min(100, score))`. -/
def calculateSSLScore (a : SslAnalysisRec) : ℤ :=
  let base : ℤ := if a.isValid then 100 else 30
  let s1 := base - (a.vulnerabilities.map
    (fun v => severityPenaltyMain v.severity)).sum
  let s2 := s1 - (match a.certificateVulns with
    | some l => (l.map (fun v => severityPenaltyCert v.severity)).sum
    | none => 0)
  let s3 := s2 - (match a.protocolVulns with
    | some l => (l.map (fun v => severityPenaltyComponent v.severity)).sum
    | none => 0)
  let s4 := s3 - (match a.cipherVulns with
    | some l => (l.map (fun v => severityPenaltyComponent v.severity)).sum
    | none => 0)
  let s5 := s4 + (match a.protocolVersion with
    | some v => if v ≠ "" ∧ strContains v "1.3" then 5 else 0
    | none => 0)
  let s6 := s5 + (match a.cipherBits with
    | some b => if b ≥ 256 then 3 else 0
    | none => 0)
  clampZ s6

end SSLAnalyzer

/-! ## The header score (`HeaderAnalyzer._calculateSecurityScore`) -/

/-- One entry of the static `SECURITY_HEADERS` configuration table
(config/security): severity of absence and numeric weight. -/
structure HeaderConfig where
  severity : String
  weight : ℚ
deriving Repr

/-- The `SECURITY_HEADERS` table of config/security. -/
def securityHeadersTable : List (String × HeaderConfig) :=
  [("Content-Security-Policy", ⟨"critical", 15⟩),
   ("Strict-Transport-Security", ⟨"critical", 15⟩),
   ("X-Frame-Options", ⟨"high", 10⟩),
   ("X-Content-Type-Options", ⟨"high", 10⟩),
   ("Referrer-Policy", ⟨"medium", 5⟩),
   ("Permissions-Policy", ⟨"medium", 5⟩),
   ("X-XSS-Protection", ⟨"medium", 5⟩),
   ("Expect-CT", ⟨"low", 3⟩),
   ("Cache-Control", ⟨"medium", 5⟩),
   ("Pragma", ⟨"low", 3⟩)]

/-- The fields of the header analysis record read by
`_calculateSecurityScore`: the analyzed URL, the lists of present and
missing catalog headers, and the per-header detail scores (an
association list standing for `analysis.details`). -/
structure HeaderAnalysisRec where
  url : String
  present : List String
  missing : List String
  detailScores : List (String × ℚ)
deriving Repr

namespace HeaderAnalyzer

/-- `HeaderAnalyzer._isOptionalHeader`: for URLs containing a major
site name, X-XSS-Protection and X-Frame-Options are optional; otherwise
Permissions-Policy and Referrer-Policy are. -/
def isOptionalHeader (headerName url : String) : Bool :=
  let majorSites := ["google.com", "facebook.com", "microsoft.com",
    "amazon.com", "apple.com"]
  let isMajorSite := majorSites.any (fun site => url ≠ "" && strContains url site)
  if isMajorSite then
    ["X-XSS-Protection", "X-Frame-Options"].contains headerName
  else
    ["Permissions-Policy", "Referrer-Policy"].contains headerName

/-- `Object.values(SECURITY_HEADERS).reduce((sum, c) => sum + c.weight, 0)`. -/
def totalWeight : ℚ :=
  (securityHeadersTable.map (fun e => e.2.weight)).sum

/-- `HeaderAnalyzer._calculateSecurityScore` (headerAnalyzer source,
lines 456-500): base 30 for HTTPS URLs; for each present catalog header
add `(detail.score || 50) / 100 × weight`; for each missing
non-optional header subtract `weight × 0.3 / 0.2 / 0.1` by severity;
normalize with `Math.max(0, Math.min(100, score / totalWeight × 100))`
and round. -/
def calculateSecurityScore (a : HeaderAnalysisRec) : ℤ :=
  let base : ℚ := if strStartsWith a.url "https://" then 30 else 0
  let presentScore := a.present.foldl (fun acc name =>
    match securityHeadersTable.lookup name, a.detailScores.lookup name with
    | some cfg, some ds =>
      let headerScore := if ds = 0 then 50 else ds
      acc + (headerScore / 100) * cfg.weight
    | _, _ => acc) base
  let afterMissing := a.missing.foldl (fun acc name =>
    if isOptionalHeader name a.url then acc
    else
      match securityHeadersTable.lookup name with
      | some cfg =>
        if cfg.severity = "critical" then acc - cfg.weight * (3/10)
        else if cfg.severity = "high" then acc - cfg.weight * (2/10)
        else if cfg.severity = "medium" then acc - cfg.weight * (1/10)
        else acc
      | none => acc) presentScore
  jsRound (clampQ ((afterMissing / totalWeight) * 100))

end HeaderAnalyzer

/-! ## The cookie analyzer (`CookieAnalyzer`)

The `Set-Cookie` strings are parsed by the external set-cookie-parser
library; its output objects are modelled by `SetCookie` (a `Date`
valued `expires` is modelled as a millisecond timestamp, and `now` —
read by `_calculateCookieDuration` via `new Date()` — is an explicit
parameter).  JavaScript truthiness matters in several spots: a
`maxAge` of 0 is falsy, an empty `sameSite` string is falsy, and a
missing `domain`/`path` is falsy. -/

/-- A parsed cookie as produced by set-cookie-parser (the fields read
by the analyzer). -/
structure SetCookie where
  name : String
  value : String
  domain : Option String
  path : Option String
  secure : Bool
  httpOnly : Bool
  sameSite : Option String
  maxAge : Option ℤ
  expires : Option ℤ
deriving DecidableEq, Repr

namespace CookieAnalyzer

/-- `CookieAnalyzer._isSensitiveCookie`: the case-insensitive name
patterns (`/session/i` … `/api[_-]?key/i`) plus the
`COOKIE_SECURITY.dangerousNames` list of config/security. -/
def isSensitiveCookie (name : String) : Bool :=
  let l := strToLower name
  ["session", "auth", "token", "csrf", "password", "login", "user",
   "admin", "secure", "private", "jwt", "bearer", "oauth"].any
    (fun p => strContains l p) ||
  ["apikey", "api_key", "api-key"].any (fun p => strContains l p) ||
  ["password", "token", "session", "auth", "csrf"].any
    (fun d => strContains l d)

/-- `CookieAnalyzer._isTrackingCookie`. -/
def isTrackingCookie (name : String) : Bool :=
  let l := strToLower name
  strStartsWith l "_ga" || strStartsWith l "_gtm" ||
    strStartsWith l "_gid" || strStartsWith l "_fbp" ||
    strStartsWith l "_fbc" ||
  ["track", "analytics", "pixel", "campaign", "utm_", "visitor",
   "affiliate"].any (fun p => strContains l p)

/-- Characters of the `/^[A-Za-z0-9+\/]+=*$/` base64 class. -/
def isBase64Char (c : Char) : Bool := c.isAlphanum || c = '+' || c = '/'

/-- Hexadecimal digits (`/^[0-9a-fA-F]+$/`). -/
def isHexChar (c : Char) : Bool :=
  c.isDigit || ('a' ≤ c && c ≤ 'f') || ('A' ≤ c && c ≤ 'F')

/-- Length of the longest run of alphanumeric characters
(`/[A-Za-z0-9]{20,}/` matches iff this is at least 20). -/
def maxAlnumRun (l : List Char) : ℕ :=
  (l.foldl (fun p c =>
    if c.isAlphanum then (p.1 + 1, max p.2 (p.1 + 1)) else (0, p.2))
    ((0 : ℕ), (0 : ℕ))).2

/-- `CookieAnalyzer._isEncodedValue`. -/
def isEncodedValue (value : String) : Bool :=
  let l := value.data
  let base64Matches :=
    !(l.takeWhile isBase64Char).isEmpty &&
      (l.dropWhile isBase64Char).all (fun c => c = '=')
  let hexMatches := !l.isEmpty && l.all isHexChar
  (base64Matches && l.length > 10) || (hexMatches && l.length > 16) ||
    (maxAlnumRun l ≥ 20)

/-- `!!cookie.maxAge`: a maxAge of 0 is falsy. -/
def maxAgeTruthy (c : SetCookie) : Bool :=
  match c.maxAge with
  | some ma => ma != 0
  | none => false

/-- `!!cookie.expires`: a `Date` object is always truthy. -/
def expiresTruthy (c : SetCookie) : Bool := c.expires.isSome

/-- `CookieAnalyzer._calculateCookieDuration` (in milliseconds). -/
def calculateCookieDuration (now : ℤ) (c : SetCookie) : ℤ :=
  if maxAgeTruthy c then (c.maxAge.getD 0) * 1000
  else
    match c.expires with
    | some e => e - now
    | none => 0

/-- `cookie.sameSite || null`: the empty string collapses to null. -/
def normSameSite (s? : Option String) : Option String :=
  match s? with
  | some s => if s = "" then none else some s
  | none => none

/-- `cookie.path || '/'`. -/
def normPath (p? : Option String) : String :=
  match p? with
  | some p => if p = "" then "/" else p
  | none => "/"

/-- The `/[<>\"'&]/` test of `_analyzeCookieValue`. -/
def hasSuspiciousChar (value : String) : Bool :=
  value.data.any (fun c =>
    c = '<' || c = '>' || c = '"' || c = Char.ofNat 39 || c = '&')

/-- The fields of a single-cookie analysis consumed downstream. -/
structure CookieEval where
  name : String
  value : String
  secure : Bool
  httpOnly : Bool
  sameSite : Option String
  isSession : Bool
  isPersistent : Bool
  isSensitive : Bool
  vulnerabilities : List Vuln
deriving DecidableEq, Repr

/-- `CookieAnalyzer._analyzeSingleCookie` (cookieAnalyzer.js lines
100-193) together with the `_analyzeCookieValue` and
`_analyzeCookieScope` helpers it calls, in source order: Secure flag,
HttpOnly flag, SameSite, lifetime, value checks, scope checks. -/
def analyzeSingleCookie (now : ℤ) (url : String) (c : SetCookie) : CookieEval :=
  let sensitive := isSensitiveCookie c.name
  let sameSite := normSameSite c.sameSite
  let persistent := maxAgeTruthy c || expiresTruthy c
  let secureVulns : List Vuln :=
    if !c.secure then
      [⟨"missing_secure_flag", if sensitive then .critical else .high⟩]
    else []
  let httpOnlyVulns : List Vuln :=
    if !c.httpOnly then
      [⟨"missing_httponly_flag", if sensitive then .high else .medium⟩]
    else []
  let sameSiteVulns : List Vuln :=
    match sameSite with
    | none => [⟨"missing_samesite", .medium⟩]
    | some s =>
      if strToLower s = "none" && !c.secure then
        [⟨"samesite_none_without_secure", .high⟩]
      else []
  let lifetimeVulns : List Vuln :=
    if persistent && calculateCookieDuration now c > 86400000 then
      [⟨"excessive_cookie_lifetime", .medium⟩]
    else []
  let valueVulns : List Vuln :=
    (if !isEncodedValue c.value && sensitive then
      [⟨"unencoded_sensitive_cookie", .medium⟩] else []) ++
    (if strLen c.value > 4096 then [⟨"oversized_cookie", .low⟩] else []) ++
    (if hasSuspiciousChar c.value then [⟨"suspicious_characters", .low⟩] else [])
  let domainVulns : List Vuln :=
    match c.domain with
    | some d =>
      if d = "" then []
      else
        let trimmed := if strStartsWith d "." then ⟨d.data.drop 1⟩ else d
        if (strSplitOn trimmed '.').length ≤ 2 then
          [⟨"overly_broad_domain", .low⟩]
        else []
    | none => []
  let pathVulns : List Vuln :=
    if normPath c.path = "/" && sensitive then
      [⟨"broad_path_sensitive_cookie", .medium⟩]
    else []
  { name := c.name, value := c.value, secure := c.secure,
    httpOnly := c.httpOnly, sameSite := sameSite,
    isSession := !persistent, isPersistent := persistent,
    isSensitive := sensitive,
    vulnerabilities := secureVulns ++ httpOnlyVulns ++ sameSiteVulns ++
      lifetimeVulns ++ valueVulns ++ domainVulns ++ pathVulns }

/-- A ratio comparison `num/den < bound` with JavaScript division-by-
zero semantics: `0/0` is `NaN` and every comparison against `NaN` is
false. -/
def ratioLtGuard (num den : ℕ) (bound : ℚ) : Bool :=
  if den = 0 then false else decide ((num : ℚ) / (den : ℚ) < bound)

/-- `CookieAnalyzer._analyzeOverallCookiePatterns` (lines 199-259). -/
def overallPatternVulns (evals : List CookieEval) : List Vuln :=
  let secureCount := evals.countP (fun e => e.secure)
  let httpOnlyCount := evals.countP (fun e => e.httpOnly)
  let sessionCount := evals.countP (fun e => e.isSession)
  let persistentCount := evals.countP (fun e => e.isPersistent)
  (if evals.length > 10 then [Vuln.mk "excessive_cookies" .low] else []) ++
  (if ratioLtGuard secureCount evals.length (8/10) then
    [Vuln.mk "low_secure_cookie_ratio" .high] else []) ++
  (if ratioLtGuard httpOnlyCount evals.length (6/10) then
    [Vuln.mk "low_httponly_ratio" .medium] else []) ++
  (if sessionCount = 0 ∧ persistentCount > 0 then
    [Vuln.mk "no_session_cookies" .low] else []) ++
  (if (evals.filter (fun e => isTrackingCookie e.name)).length > 0 then
    [Vuln.mk "tracking_cookies_detected" .info] else [])

/-- The severity penalties of `_calculateCookieScore`. -/
def cookieSeverityPenalty : Severity → ℤ
  | .critical => 25
  | .high => 15
  | .medium => 10
  | .low => 5
  | .info => 2
  | _ => 0

/-- `CookieAnalyzer._calculateCookieScore` (lines 378-415): 100 when
there are no cookies; otherwise 100 minus the severity penalties, plus
bonuses of 10 × secure ratio, 10 × HttpOnly ratio and 5 × SameSite
ratio, rounded and clamped.  The three ratio divisions share the
denominator `cookies.length`; their numerators are counts over that
same list, so a zero denominator makes each ratio `0/0 = NaN`, and the
NaN propagates through `score +=`, `Math.round`, `Math.min` and
`Math.max` to the returned score.  NaN is modelled as `none`: the
result is `none` exactly when `hasCookies` is true but the parsed
cookie list is empty. -/
def calculateCookieScore (hasCookies : Bool) (evals : List CookieEval)
    (vulns : List Vuln) : Option ℤ :=
  if !hasCookies then some 100
  else
    let afterVulns : ℚ :=
      100 - ((vulns.map (fun v => cookieSeverityPenalty v.severity)).sum : ℤ)
    if evals.length = 0 then none
    else
      let n : ℚ := evals.length
      let secureRatio := (evals.countP (fun e => e.secure) : ℚ) / n
      let httpOnlyRatio := (evals.countP (fun e => e.httpOnly) : ℚ) / n
      let sameSiteRatio := (evals.countP (fun e => e.sameSite.isSome) : ℚ) / n
      some (clampZ (jsRound (afterVulns + secureRatio * 10 +
        httpOnlyRatio * 10 + sameSiteRatio * 5)))

/-- The `cookieHeaders` argument of `analyzeCookies`: absent, a single
string, or a list of strings. -/
inductive CookieHeadersInput
  | missing
  | str (s : String)
  | list (l : List String)
deriving DecidableEq, Repr

/-- `!cookieHeaders || cookieHeaders.length === 0`. -/
def inputEmpty : CookieHeadersInput → Bool
  | .missing => true
  | .str s => s = ""
  | .list l => l.isEmpty

/-- The fields of the `analyzeCookies` result the claims are about.
`score` is a JavaScript number that can be NaN (`none`). -/
structure CookieResult where
  hasCookies : Bool
  count : ℕ
  score : Option ℤ
  grade : Grade
  vulnerabilities : List Vuln
deriving Repr

/-- `CookieAnalyzer.analyzeCookies` (cookieAnalyzer.js lines 16-94).
The external set-cookie-parser output is passed as `parsedCookies`
(only consulted on the nonempty branch).  With zero `Set-Cookie`
entries the source returns the literal record
`score: 100, grade: 'A', hasCookies: false`.  A NaN score (`none`)
falls through every `>=` comparison of `_calculateGrade`, which
therefore returns `F` for it. -/
def analyzeCookies (now : ℤ) (url : String) (input : CookieHeadersInput)
    (parsedCookies : List SetCookie) : CookieResult :=
  if inputEmpty input then
    { hasCookies := false, count := 0, score := some 100, grade := .A,
      vulnerabilities := [] }
  else
    let evals := parsedCookies.map (analyzeSingleCookie now url)
    let perCookieVulns := (evals.map (fun e => e.vulnerabilities)).flatten
    let vulns := perCookieVulns ++ overallPatternVulns evals
    let score := calculateCookieScore true evals vulns
    { hasCookies := true, count := parsedCookies.length, score := score,
      grade :=
        match score with
        | some s => calculateGrade (s : ℚ)
        | none => Grade.F,
      vulnerabilities := vulns }

end CookieAnalyzer

/-! ## The URL validator (`URLValidator`)

DNS resolution is the one external effect, passed in as an oracle
`dns : String → Bool` (true = the hostname resolves).  `new URL(...)`
is the WHATWG parser; it is modelled by `parseSimpleUrl`, restricted to
the `scheme://host` shapes that `_generateUrlVariations` produces for
the inputs under study (no userinfo, port, path, query or fragment in
the host part; a string without `://` does not parse, as `new URL`
would throw on it after variation generation prefixed a scheme). -/

namespace URLValidator

/-- Numeric value of a digit string (`Number(part)` on the
all-digit parts of a matched IPv4 literal). -/
def digitsToNat (s : String) : ℕ :=
  s.data.foldl (fun n c => n * 10 + (c.toNat - 48)) 0

/-- One octet of the `REGEX.IPV4` pattern
(`25[0-5]|2[0-4][0-9]|[01]?[0-9][0-9]?`): one to three digits whose
value is at most 255. -/
def isIpv4Octet (s : String) : Bool :=
  let l := s.data
  decide (0 < l.length) && decide (l.length ≤ 3) && l.all Char.isDigit &&
    decide (digitsToNat s ≤ 255)

/-- `REGEX.IPV4.test(hostname)`. -/
def isIpv4String (s : String) : Bool :=
  let parts := strSplitOn s '.'
  decide (parts.length = 4) && parts.all isIpv4Octet

/-- `REGEX.IPV6.test(hostname)` (the full eight-group form the
constants file encodes). -/
def isIpv6String (s : String) : Bool :=
  let parts := strSplitOn s ':'
  decide (parts.length = 8) && parts.all (fun p =>
    decide (0 < p.data.length) && decide (p.data.length ≤ 4) &&
      p.data.all CookieAnalyzer.isHexChar)

/-- `URLValidator._isIP`. -/
def isIP (hostname : String) : Bool :=
  isIpv4String hostname || isIpv6String hostname

/-- One label of the RFC-1123 domain regex
(`[a-zA-Z0-9]([a-zA-Z0-9-]{0,61}[a-zA-Z0-9])?`). -/
def isDomainLabel (s : String) : Bool :=
  match s.data with
  | [] => false
  | [c] => c.isAlphanum
  | c :: rest =>
    c.isAlphanum && (rest.getLast?.map Char.isAlphanum).getD false &&
      (rest.dropLast.all (fun x => x.isAlphanum || x = '-')) &&
      decide (s.data.length ≤ 63)

/-- `URLValidator._isValidHostname`. -/
def isValidHostname (hostname : String) : Bool :=
  isIP hostname ||
    ((strSplitOn hostname '.').all isDomainLabel &&
      decide (strLen hostname ≤ 253))

/-- `URLValidator._isPrivateIP` (source lines 217-232): only IPv4
literals are checked; 10.x, 172.16-31.x, 192.168.x, 127.x and 0.x are
private. -/
def isPrivateIP (hostname : String) : Bool :=
  if !isIpv4String hostname then false
  else
    let parts := (strSplitOn hostname '.').map digitsToNat
    let p0 := parts.getD 0 0
    let p1 := parts.getD 1 0
    decide (p0 = 10) ||
      (decide (p0 = 172) && decide (16 ≤ p1) && decide (p1 ≤ 31)) ||
      (decide (p0 = 192) && decide (p1 = 168)) ||
      decide (p0 = 127) ||
      decide (p0 = 0)

/-- Scheme and hostname of a parsed URL. -/
structure ParsedUrl where
  protocol : String
  hostname : String
deriving DecidableEq, Repr

/-- Split a character list at the first `://`. -/
def splitScheme : List Char → Option (List Char × List Char)
  | [] => none
  | c :: t =>
    if c = ':' then
      match t with
      | '/' :: '/' :: rest => some ([], rest)
      | _ => none
    else (splitScheme t).map (fun p => (c :: p.1, p.2))

/-- Model of `new URL(testUrl)` for `scheme://host` inputs: the scheme
must be a letter followed by letters, digits, `+`, `-` or `.`; the
host must be nonempty and free of delimiters; scheme and host are
lowercased; `protocol` carries the trailing colon.  Anything else is a
parse failure (`new URL` throws). -/
def parseSimpleUrl (s : String) : Option ParsedUrl :=
  match splitScheme s.data with
  | none => none
  | some (schemeChars, hostChars) =>
    let scheme := strToLower ⟨schemeChars⟩
    let host := strToLower ⟨hostChars⟩
    let schemeOk :=
      match scheme.data with
      | [] => false
      | c :: rest => c.isAlpha &&
          rest.all (fun x => x.isAlphanum || x = '+' || x = '-' || x = '.')
    let hostOk := host ≠ "" && host.data.all (fun c =>
      !(c = '/' || c = ':' || c = '?' || c = '#' || c = '@' || c = '\\' ||
        c = '[' || c = ']' || isJsWs c))
    if schemeOk && hostOk then some ⟨scheme ++ ":", host⟩ else none

/-- The payload of a successful `_validateSingleUrl`. -/
structure ValidUrl where
  url : String
  protocol : String
  hostname : String
deriving DecidableEq, Repr

/-- Result of `_validateSingleUrl`. -/
inductive SingleResult
  | invalid (errors : List String)
  | valid (v : ValidUrl)
deriving DecidableEq, Repr

/-- `URLValidator._validateSingleUrl` (source lines 128-188): parse,
check protocol, hostname presence and shape, reject private IPs, then
resolve DNS (the DNS failure message carries the underlying error text
in the source; the model keeps its fixed prefix). -/
def validateSingleUrl (dns : String → Bool) (testUrl : String) : SingleResult :=
  match parseSimpleUrl testUrl with
  | none => .invalid ["URL malformada"]
  | some p =>
    let errors :=
      (if !(p.protocol = "http:" || p.protocol = "https:") then
        ["Protocolo deve ser HTTP ou HTTPS"] else []) ++
      (if p.hostname = "" then ["Hostname inválido"] else []) ++
      (if p.hostname ≠ "" && !isValidHostname p.hostname then
        ["Formato do hostname inválido"] else []) ++
      (if isPrivateIP p.hostname then
        ["IPs privados não são permitidos"] else []) ++
      (if !dns p.hostname then ["DNS não resolve"] else [])
    if !errors.isEmpty then .invalid errors
    else .valid ⟨testUrl, p.protocol, p.hostname⟩

/-- `URLValidator._generateUrlVariations` (source lines 98-122). -/
def generateUrlVariations (cleanUrl : String) : List String :=
  if strStartsWith cleanUrl "http://" || strStartsWith cleanUrl "https://" then
    if strStartsWith cleanUrl "http://" then
      [String.append "https://" ⟨cleanUrl.data.drop 7⟩, cleanUrl]
    else [cleanUrl]
  else
    let base := ["https://" ++ cleanUrl, "http://" ++ cleanUrl]
    if !strStartsWith cleanUrl "www." then
      base ++ ["https://www." ++ cleanUrl, "http://www." ++ cleanUrl]
    else base

/-- The candidate loop of `validateAndNormalize`: first valid variation
wins; otherwise the per-variation errors are collected in order. -/
def tryVariations (dns : String → Bool) :
    List String → Except (List (String × List String)) ValidUrl
  | [] => .error []
  | v :: rest =>
    match validateSingleUrl dns v with
    | .valid ok => .ok ok
    | .invalid errs =>
      match tryVariations dns rest with
      | .ok ok => .ok ok
      | .error es => .error ((v, errs) :: es)

/-- Result of `validateAndNormalize` (the fields the claims concern;
the typo-correction suggestions are not modelled). -/
inductive ValidationResult
  | valid (v : ValidUrl) (isHttps : Bool)
  | invalid (errors : List (String × List String))
  | internalError
deriving DecidableEq, Repr

/-- `isValid` of the returned record. -/
def ValidationResult.isValid : ValidationResult → Bool
  | .valid _ _ => true
  | _ => false

/-- `URLValidator.validateAndNormalize` (source lines 16-80):
`_cleanInput` throws on an empty input (caught as an internal error),
otherwise the input is trimmed and lowercased, the variations are
tried in order and the first fully valid candidate is returned with
its metadata (`isHttps` = protocol is `https:`). -/
def validateAndNormalize (dns : String → Bool) (inputUrl : String) :
    ValidationResult :=
  if inputUrl = "" then .internalError
  else
    match tryVariations dns
        (generateUrlVariations (strToLower (strTrim inputUrl))) with
    | .ok v => .valid v (v.protocol = "https:")
    | .error es => .invalid es

end URLValidator



/-! ## The error classifier (`NetworkErrorHandler`)

An axios error carries an optional `response` (with an HTTP status),
a `request` marker, a node error `code` and a message.  Only the
`category` and `status` fields of the processed error feed
`isRecoverableError`. -/

/-- The fields of a raw axios/node error read by
`processNetworkError`. -/
structure RawError where
  responseStatus : Option ℕ
  hasRequest : Bool
  code : Option String
  message : String
deriving DecidableEq, Repr

/-- The processed-error fields read by `isRecoverableError`. -/
structure ProcessedError where
  category : String
  status : Option ℕ
deriving DecidableEq, Repr

namespace NetworkErrorHandler

/-- `NetworkErrorHandler._handleHttpError` (errorHandler.js lines
42-72): the category starts as `network` and becomes `client_error`
on 4xx and `server_error` on 5xx-and-above. -/
def handleHttpError (status : ℕ) : ProcessedError :=
  { category :=
      if 400 ≤ status ∧ status < 500 then "client_error"
      else if 500 ≤ status then "server_error"
      else "network",
    status := some status }

/-- `NetworkErrorHandler._handleRequestError` (lines 78-172): the
cascade over the node error code and the lowercased message. -/
def handleRequestError (code : Option String) (message : String) :
    ProcessedError :=
  let msg := strToLower message
  let cat :=
    if code = some "ENOTFOUND" || strContains msg "getaddrinfo" then "dns"
    else if code = some "ECONNREFUSED" then "connection"
    else if code = some "ETIMEDOUT" || strContains msg "timeout" then "timeout"
    else if code = some "ECONNRESET" then "connection"
    else if strContains msg "certificate" || strContains msg "ssl" ||
        strContains msg "tls" then "ssl"
    else if code = some "EHOSTUNREACH" || code = some "ENETUNREACH" then
      "network"
    else "network"
  { category := cat, status := none }

/-- `NetworkErrorHandler.processNetworkError` (lines 15-36). -/
def processNetworkError (e : RawError) : ProcessedError :=
  match e.responseStatus with
  | some s => handleHttpError s
  | none =>
    if e.hasRequest then handleRequestError e.code e.message
    else { category := "application", status := none }

/-- `NetworkErrorHandler.isRecoverableError` (lines 284-296):
`timeout` and `connection` categories are recoverable, as are the
statuses 408, 429, 502, 503 and 504 (`error.status && [...] .includes`;
a zero status would be falsy). -/
def isRecoverableError (e : ProcessedError) : Bool :=
  if e.category = "timeout" || e.category = "connection" then true
  else
    match e.status with
    | some s => decide (s ≠ 0) && [408, 429, 502, 503, 504].contains s
    | none => false

end NetworkErrorHandler

/-! ## The certificate chain walk (`SSLAnalyzer`)

`issuerCertificate` links form a pointer graph; pointer identity is
modelled by list indices (`issuerIdx`), so two distinct certificates
with equal contents stay distinct.  A dangling `issuerIdx` plays the
role of a missing (`undefined`, falsy) `issuerCertificate`.  The two
walks are partial in the source — they are given fuel here, and `none`
means the fuel ran out, so divergence is `∀ fuel, … = none`. -/

/-- A certificate node: subject and issuer (the JSON-stringified
distinguished names, modelled as strings) plus the
`issuerCertificate` pointer. -/
structure Cert where
  subject : String
  issuer : String
  issuerIdx : Option ℕ
deriving DecidableEq, Repr

namespace SSLAnalyzer

/-- The guard `cert.issuerCertificate && cert.issuerCertificate !==
cert` shared by both walks: the next index, or `none` when there is no
further (distinct) issuer object. -/
def issuerLink (g : List Cert) (i : ℕ) : Option ℕ :=
  match g.get? i with
  | none => none
  | some c =>
    match c.issuerIdx with
    | some j => if j = i then none else if j < g.length then some j else none
    | none => none

/-- `SSLAnalyzer._calculateChainLength` (sslAnalyzer.js lines 780-785)
with explicit fuel: `none` means the recursion has not finished within
`fuel` steps. -/
def chainLengthFuel (g : List Cert) : ℕ → ℕ → ℕ → Option ℕ
  | 0, _, _ => none
  | fuel + 1, i, count =>
    match issuerLink g i with
    | some j => chainLengthFuel g fuel j (count + 1)
    | none => some count

/-- `SSLAnalyzer._isChainComplete` (lines 791-799) with explicit fuel:
walk to the last distinct issuer, then report whether it is
self-signed (`subject` and `issuer` both truthy and JSON-equal). -/
def isChainCompleteFuel (g : List Cert) : ℕ → ℕ → Option Bool
  | 0, _ => none
  | fuel + 1, i =>
    match issuerLink g i with
    | some j => isChainCompleteFuel g fuel j
    | none =>
      match g.get? i with
      | some c => some (decide (c.subject ≠ "") && decide (c.issuer ≠ "") &&
          decide (c.subject = c.issuer))
      | none => some false

/-- The chain-length walk started at certificate `i` never finishes,
whatever the fuel. -/
def chainLengthDiverges (g : List Cert) (i : ℕ) : Prop :=
  ∀ fuel, chainLengthFuel g fuel i 1 = none

/-- The completeness walk started at certificate `i` never finishes. -/
def chainCompleteDiverges (g : List Cert) (i : ℕ) : Prop :=
  ∀ fuel, isChainCompleteFuel g fuel i = none

/-- The walk from `i` reaches a terminal certificate (missing or
self-referential issuer) within `steps` links. -/
def terminalWithin (g : List Cert) : ℕ → ℕ → Bool
  | 0, i => (issuerLink g i).isNone
  | steps + 1, i =>
    match issuerLink g i with
    | none => true
    | some j => terminalWithin g steps j

end SSLAnalyzer

/-- A two-certificate issuer cycle: each certificate names the other
as its issuer object (a cycle of length two, so neither node is its
own `issuerCertificate`). -/
def twoCycleChain : List Cert :=
  [⟨"CN=A", "CN=B", some 1⟩, ⟨"CN=B", "CN=A", some 0⟩]

/-! ## The HTTP fetcher retry loop (`HttpClient`)

The outcome of each attempt is an oracle `attempts : ℕ → Except
NetFailure ℕ` (the success payload is abstracted to a status number).
The trace records how many attempts ran, the delays awaited before
retries, and the final outcome. -/

/-- A failed attempt: an optional HTTP response status (absent for
pure network errors). -/
structure NetFailure where
  responseStatus : Option ℕ
deriving DecidableEq, Repr

/-- What one run of `_makeRequestWithRetry` did. -/
structure RetryTrace where
  attemptsMade : ℕ
  delaysMs : List ℕ
  result : Except NetFailure ℕ
deriving Repr

namespace HttpClient

/-- `HttpClient._isNonRetryableError` (httpClient.js lines 255-265):
4xx responses other than 408 and 429 are not retried; errors without a
response may be temporary. -/
def isNonRetryableError (e : NetFailure) : Bool :=
  match e.responseStatus with
  | none => false
  | some status =>
    decide (400 ≤ status) && decide (status < 500) &&
      !([408, 429].contains status)

/-- The `for (attempt = 1; attempt <= maxRetries; attempt++)` loop of
`_makeRequestWithRetry` (lines 93-130), structurally recursive on the
remaining attempts: before every attempt after the first the loop
sleeps `attempt × 1000` ms; a non-retryable failure breaks out; when
the attempts are exhausted the last error is thrown. -/
def retryLoop (attempts : ℕ → Except NetFailure ℕ) (lastErr : NetFailure) :
    ℕ → ℕ → RetryTrace
  | 0, _ => ⟨0, [], .error lastErr⟩
  | remaining + 1, attempt =>
    let delays := if attempt > 1 then [attempt * 1000] else []
    match attempts attempt with
    | .ok r => ⟨1, delays, .ok r⟩
    | .error e =>
      if isNonRetryableError e then ⟨1, delays, .error e⟩
      else
        let t := retryLoop attempts e remaining (attempt + 1)
        ⟨t.attemptsMade + 1, delays ++ t.delaysMs, t.result⟩

/-- `_makeRequestWithRetry` with its default `maxRetries = 3` (the
initial `lastError` placeholder is never returned, because the loop
always runs at least one attempt; it is a dummy failure here). -/
def makeRequestWithRetry (attempts : ℕ → Except NetFailure ℕ) : RetryTrace :=
  retryLoop attempts ⟨none⟩ 3 1

end HttpClient

/-- An HTML document whose two password forms use GET over plain HTTP:
the HTML score drops to 80 − 2 × (20 + 25) = −10. -/
def negativeHtmlInput : HtmlInput :=
  { forms := [⟨some "GET", true⟩, ⟨some "GET", true⟩],
    scriptSrcs := [], hasCharset := true }

/-- A bare `sessionid` cookie: sensitive name, no protective flag. -/
def bareSessionCookie : SetCookie :=
  { name := "sessionid", value := "xyz", domain := none, path := none,
    secure := false, httpOnly := false, sameSite := none,
    maxAge := none, expires := none }

/-! ## Rounding and clamping facts -/

/-- `jsRound` is the floor of `x + 1/2`. -/
theorem jsRound_eq_floor (x : ℚ) : jsRound x = ⌊x + 1/2⌋ := by
  rw [jsRound, Rat.floor_def', ← Rat.floor_def]

/-- Evaluate `jsRound` at a concrete rational via the floor bracket. -/
theorem jsRound_eq_of_bounds (x : ℚ) (z : ℤ) (h1 : (z : ℚ) ≤ x + 1/2)
    (h2 : x + 1/2 < z + 1) : jsRound x = z := by
  rw [jsRound_eq_floor]
  exact Int.floor_eq_iff.mpr ⟨h1, by exact_mod_cast h2⟩

/-! ## Claim C1: the overall-score formula -/

/-- On `roundingAnalysis` the code rounds 0.45 down to 0. -/
theorem calculateOverallScore_roundingAnalysis :
    AnalysisController.calculateOverallScore roundingAnalysis = 0 := by
  have h : jsRound (0 * (25/100) + 0 * (35/100) + 0 * (25/100) +
      3 * (15/100) - min ((0 : ℚ) * 10) 30) = 0 := by
    apply jsRound_eq_of_bounds <;> norm_num
  simpa [AnalysisController.calculateOverallScore, roundingAnalysis,
    AnalysisController.criticalCount,
    AnalysisController.consolidatedVulnerabilities, clampZ] using
    congrArg clampZ h

/-- C1 (counterexample): on `roundingAnalysis` the aggregator returns 0
while the claim formula — which has no rounding step — gives 9/20, so
the claim as stated is false. -/
theorem overallScore_claim_counterexample :
    (AnalysisController.calculateOverallScore roundingAnalysis : ℚ) ≠
      claimOverallScore 0 0 0 3 0 true := by
  rw [calculateOverallScore_roundingAnalysis]
  unfold claimOverallScore clampQ
  norm_num

/-- C1 (amended): for every analysis, the aggregator's overall score
equals the claim formula with the weighted sum and penalties rounded to
the nearest integer (ties toward +∞) before clamping into [0,100]. -/
theorem overallScore_formula (a : AnalysisRec) :
    AnalysisController.calculateOverallScore a =
      claimOverallScoreRounded a.ssl.score a.headers.score a.cookies.score
        a.html.score (AnalysisController.criticalCount a) a.isHttps := by
  unfold AnalysisController.calculateOverallScore claimOverallScoreRounded
  rw [min_comm, mul_comm]
  cases a.isHttps <;> simp <;> ring

/-! ## The grade functions (claims C3 and C10) -/

/-- C3: the controller grade mapping assigns A+ on [90, ∞), A on
[80, 90), B on [70, 80), C on [60, 70), D on [50, 60) and F below 50
(the thresholds are tested first-match, so each band is half-open), and
it is monotone for the order F < D < C < B < A < A+. -/
theorem grade_thresholds_and_monotone :
    (∀ s : ℚ, 90 ≤ s → AnalysisController.calculateGrade s = .APlus) ∧
    (∀ s : ℚ, 80 ≤ s → s < 90 → AnalysisController.calculateGrade s = .A) ∧
    (∀ s : ℚ, 70 ≤ s → s < 80 → AnalysisController.calculateGrade s = .B) ∧
    (∀ s : ℚ, 60 ≤ s → s < 70 → AnalysisController.calculateGrade s = .C) ∧
    (∀ s : ℚ, 50 ≤ s → s < 60 → AnalysisController.calculateGrade s = .D) ∧
    (∀ s : ℚ, s < 50 → AnalysisController.calculateGrade s = .F) ∧
    (∀ s1 s2 : ℚ, s1 ≤ s2 →
      (AnalysisController.calculateGrade s1).rank ≤
        (AnalysisController.calculateGrade s2).rank) := by
  refine ⟨?_, ?_, ?_, ?_, ?_, ?_, ?_⟩
  · intro s h
    unfold AnalysisController.calculateGrade
    split_ifs <;> first | rfl | linarith
  · intro s h1 h2
    unfold AnalysisController.calculateGrade
    split_ifs <;> first | rfl | linarith
  · intro s h1 h2
    unfold AnalysisController.calculateGrade
    split_ifs <;> first | rfl | linarith
  · intro s h1 h2
    unfold AnalysisController.calculateGrade
    split_ifs <;> first | rfl | linarith
  · intro s h1 h2
    unfold AnalysisController.calculateGrade
    split_ifs <;> first | rfl | linarith
  · intro s h
    unfold AnalysisController.calculateGrade
    split_ifs <;> first | rfl | linarith
  · intro s1 s2 h
    unfold AnalysisController.calculateGrade
    split_ifs <;> simp [Grade.rank] <;> linarith

/-- C3 witness: the grade theorem applied at concrete scores in every
band and at a concrete monotone pair. -/
theorem grade_thresholds_witness :
    AnalysisController.calculateGrade 95 = .APlus ∧
    AnalysisController.calculateGrade 85 = .A ∧
    AnalysisController.calculateGrade 75 = .B ∧
    AnalysisController.calculateGrade 65 = .C ∧
    AnalysisController.calculateGrade 55 = .D ∧
    AnalysisController.calculateGrade 45 = .F ∧
    (AnalysisController.calculateGrade 45).rank ≤
      (AnalysisController.calculateGrade 95).rank :=
  ⟨grade_thresholds_and_monotone.1 95 (by decide),
   grade_thresholds_and_monotone.2.1 85 (by decide) (by decide),
   grade_thresholds_and_monotone.2.2.1 75 (by decide) (by decide),
   grade_thresholds_and_monotone.2.2.2.1 65 (by decide) (by decide),
   grade_thresholds_and_monotone.2.2.2.2.1 55 (by decide) (by decide),
   grade_thresholds_and_monotone.2.2.2.2.2.1 45 (by decide),
   grade_thresholds_and_monotone.2.2.2.2.2.2 45 95 (by decide)⟩

/-- C10: the three `_calculateGrade` functions — in the aggregation
controller, the cookie analyzer and the header analyzer — are
extensionally equal: for every numeric score all three return the same
letter grade. -/
theorem grade_functions_agree (s : ℚ) :
    AnalysisController.calculateGrade s = CookieAnalyzer.calculateGrade s ∧
    CookieAnalyzer.calculateGrade s = HeaderAnalyzer.calculateGrade s :=
  ⟨rfl, rfl⟩

/-! ## Claim C2: score ranges -/

theorem clampZ_nonneg (x : ℤ) : 0 ≤ clampZ x := le_max_left 0 _

theorem clampZ_le (x : ℤ) : clampZ x ≤ 100 :=
  max_le (by norm_num) (min_le_left _ _)

theorem clampQ_nonneg (x : ℚ) : 0 ≤ clampQ x := le_max_left 0 _

theorem clampQ_le (x : ℚ) : clampQ x ≤ 100 :=
  max_le (by norm_num) (min_le_left _ _)

/-- `jsRound` maps [0, 100] into [0, 100]. -/
theorem jsRound_bounds (y : ℚ) (h0 : 0 ≤ y) (h1 : y ≤ 100) :
    0 ≤ jsRound y ∧ jsRound y ≤ 100 := by
  rw [jsRound_eq_floor]
  constructor
  · exact Int.le_floor.mpr (by push_cast; linarith)
  · have hf : ((⌊y + 1/2⌋ : ℤ) : ℚ) ≤ y + 1/2 := Int.floor_le _
    have : ((⌊y + 1/2⌋ : ℤ) : ℚ) < 101 := by linarith
    exact Int.lt_add_one_iff.mp (by exact_mod_cast this)

/-- Every HTML vulnerability penalty is nonnegative. -/
theorem htmlVulnPenalty_nonneg (v : Vuln) :
    0 ≤ AnalysisController.htmlVulnPenalty v := by
  unfold AnalysisController.htmlVulnPenalty
  split_ifs <;> norm_num



/-- C2 (counterexample): the HTML category score is not clamped below
0 — two password forms submitted by GET on a plain-HTTP page already
drive it to −10, so not every category score lies in [0,100]. -/
theorem categoryScore_range_counterexample :
    (AnalysisController.analyzeHTML "http://shop.example"
      negativeHtmlInput).score < 0 := by decide

/-- C2 (amended): the ssl and headers category scores and the overall
score always lie in [0,100]; the cookies category score lies in
[0,100] whenever the input has zero `Set-Cookie` entries or the parse
yields at least one cookie, but a nonempty `Set-Cookie` input that
parses to zero cookies makes the ratio arithmetic produce NaN, so the
returned cookie score is NaN (`none`); the html category score is at
most 80 but has no lower clamp. -/
theorem scores_clamped (sa : SslAnalysisRec) (ha : HeaderAnalysisRec)
    (now : ℤ) (curl : String) (input : CookieAnalyzer.CookieHeadersInput)
    (parsed : List SetCookie) (agg : AnalysisRec)
    (hurl : String) (hin : HtmlInput) :
    (0 ≤ SSLAnalyzer.calculateSSLScore sa ∧
      SSLAnalyzer.calculateSSLScore sa ≤ 100) ∧
    (0 ≤ HeaderAnalyzer.calculateSecurityScore ha ∧
      HeaderAnalyzer.calculateSecurityScore ha ≤ 100) ∧
    (CookieAnalyzer.inputEmpty input = true ∨ parsed ≠ [] →
      ∃ s, (CookieAnalyzer.analyzeCookies now curl input parsed).score =
          some s ∧ 0 ≤ s ∧ s ≤ 100) ∧
    (CookieAnalyzer.inputEmpty input = false → parsed = [] →
      (CookieAnalyzer.analyzeCookies now curl input parsed).score = none) ∧
    (0 ≤ AnalysisController.calculateOverallScore agg ∧
      AnalysisController.calculateOverallScore agg ≤ 100) ∧
    (AnalysisController.analyzeHTML hurl hin).score ≤ 80 := by
  refine ⟨⟨clampZ_nonneg _, clampZ_le _⟩, ?_, ?_, ?_,
    ⟨clampZ_nonneg _, clampZ_le _⟩, ?_⟩
  · exact jsRound_bounds _ (clampQ_nonneg _) (clampQ_le _)
  · intro hne
    by_cases h : CookieAnalyzer.inputEmpty input = true
    · exact ⟨100, by simp [CookieAnalyzer.analyzeCookies, h], by norm_num,
        by norm_num⟩
    · have h' : CookieAnalyzer.inputEmpty input = false := by
        revert h; cases CookieAnalyzer.inputEmpty input <;> simp
      have hp : parsed ≠ [] := by
        rcases hne with hne | hne
        · rw [h'] at hne; cases hne
        · exact hne
      have hlen : (parsed.map
          (CookieAnalyzer.analyzeSingleCookie now curl)).length ≠ 0 := by
        simpa using hp
      simp only [CookieAnalyzer.analyzeCookies, h', Bool.false_eq_true,
        if_false, CookieAnalyzer.calculateCookieScore, Bool.not_true,
        hlen, ite_false]
      exact ⟨_, rfl, clampZ_nonneg _, clampZ_le _⟩
  · intro h' hp
    subst hp
    simp [CookieAnalyzer.analyzeCookies, h',
      CookieAnalyzer.calculateCookieScore]
  · have key : (AnalysisController.analyzeHTML hurl hin).score =
        80 - ((AnalysisController.analyzeHTML hurl hin).vulnerabilities.map
          AnalysisController.htmlVulnPenalty).sum := rfl
    have h : 0 ≤ (((AnalysisController.analyzeHTML hurl hin).vulnerabilities.map
        AnalysisController.htmlVulnPenalty).sum) :=
      List.sum_nonneg (by
        intro x hx
        obtain ⟨v, _, rfl⟩ := List.mem_map.mp hx
        exact htmlVulnPenalty_nonneg v)
    omega

/-- C2 witness: the cookie clauses of the amended theorem exercised on
a one-cookie parse (score in [0,100]) and on a nonempty `Set-Cookie`
list parsing to zero cookies (NaN score). -/
theorem scores_clamped_witness :
    (∃ s, (CookieAnalyzer.analyzeCookies 0 "https://example.com"
        (.list ["sid=1"]) [bareSessionCookie]).score = some s ∧
        0 ≤ s ∧ s ≤ 100) ∧
    (CookieAnalyzer.analyzeCookies 0 "https://example.com"
        (.list [""]) []).score = none :=
  ⟨(scores_clamped ⟨true, [], none, none, none, none, none⟩ ⟨"", [], [], []⟩
      0 "https://example.com" (.list ["sid=1"]) [bareSessionCookie]
      ⟨⟨0, []⟩, ⟨0, []⟩, ⟨0, []⟩, ⟨0, []⟩, true⟩ ""
      ⟨[], [], true⟩).2.2.1 (Or.inr (by decide)),
   (scores_clamped ⟨true, [], none, none, none, none, none⟩ ⟨"", [], [], []⟩
      0 "https://example.com" (.list [""]) []
      ⟨⟨0, []⟩, ⟨0, []⟩, ⟨0, []⟩, ⟨0, []⟩, true⟩ ""
      ⟨[], [], true⟩).2.2.2.1 (by decide) rfl⟩

/-! ## Claim C4: the zero-cookie result -/

/-- C4 (counterexample): with zero `Set-Cookie` entries the analyzer
returns the hard-coded grade `A`, not `A+` — even though its own grade
function maps the returned score 100 to `A+`. -/
theorem emptyCookies_grade_counterexample :
    (CookieAnalyzer.analyzeCookies 0 "https://example.com"
        .missing []).grade ≠ Grade.APlus := by decide

/-- C4 (amended): for every invocation of the cookie analyzer with
zero `Set-Cookie` entries (missing, empty-string or empty-list input),
the returned analysis has score 100, grade `A` and
`hasCookies = false`. -/
theorem emptyCookies_result (now : ℤ) (url : String)
    (input : CookieAnalyzer.CookieHeadersInput) (parsed : List SetCookie)
    (h : CookieAnalyzer.inputEmpty input = true) :
    (CookieAnalyzer.analyzeCookies now url input parsed).score = some 100 ∧
    (CookieAnalyzer.analyzeCookies now url input parsed).grade = Grade.A ∧
    (CookieAnalyzer.analyzeCookies now url input parsed).hasCookies = false := by
  simp [CookieAnalyzer.analyzeCookies, h]

/-- C4 witness: the amended theorem at an empty `Set-Cookie` list. -/
theorem emptyCookies_result_witness :
    CookieAnalyzer.inputEmpty (.list []) = true ∧
    ((CookieAnalyzer.analyzeCookies 0 "https://example.com"
        (.list []) []).score = some 100 ∧
      (CookieAnalyzer.analyzeCookies 0 "https://example.com"
        (.list []) []).grade = Grade.A ∧
      (CookieAnalyzer.analyzeCookies 0 "https://example.com"
        (.list []) []).hasCookies = false) :=
  ⟨by decide,
    emptyCookies_result 0 "https://example.com" (.list []) [] (by decide)⟩

/-! ## Claim C9: findings for an unprotected sensitive cookie -/

/-- C9: a cookie whose name matches the sensitivity heuristic and that
carries none of Secure, HttpOnly and SameSite receives a critical
missing-Secure finding, a high missing-HttpOnly finding and a medium
missing-SameSite finding. -/
theorem sensitiveCookie_findings (now : ℤ) (url : String) (c : SetCookie)
    (hs : CookieAnalyzer.isSensitiveCookie c.name = true)
    (hsec : c.secure = false) (hho : c.httpOnly = false)
    (hss : c.sameSite = none) :
    Vuln.mk "missing_secure_flag" .critical ∈
      (CookieAnalyzer.analyzeSingleCookie now url c).vulnerabilities ∧
    Vuln.mk "missing_httponly_flag" .high ∈
      (CookieAnalyzer.analyzeSingleCookie now url c).vulnerabilities ∧
    Vuln.mk "missing_samesite" .medium ∈
      (CookieAnalyzer.analyzeSingleCookie now url c).vulnerabilities := by
  unfold CookieAnalyzer.analyzeSingleCookie
  simp [hs, hsec, hho, hss, CookieAnalyzer.normSameSite]



theorem sensitiveCookie_findings_witness :
    CookieAnalyzer.isSensitiveCookie bareSessionCookie.name = true ∧
    (Vuln.mk "missing_secure_flag" .critical ∈
      (CookieAnalyzer.analyzeSingleCookie 0 "https://example.com"
        bareSessionCookie).vulnerabilities ∧
     Vuln.mk "missing_httponly_flag" .high ∈
      (CookieAnalyzer.analyzeSingleCookie 0 "https://example.com"
        bareSessionCookie).vulnerabilities ∧
     Vuln.mk "missing_samesite" .medium ∈
      (CookieAnalyzer.analyzeSingleCookie 0 "https://example.com"
        bareSessionCookie).vulnerabilities) :=
  ⟨by decide,
    sensitiveCookie_findings 0 "https://example.com" bareSessionCookie
      (by decide) (by decide) (by decide) (by decide)⟩

/-! ## Claim C5: URL validator behaviour -/

/-- Both candidate variations of `http://192.168.1.1` fail validation
with the private-IP error (the DNS error may or may not accompany it,
depending on the oracle). -/
theorem validateSingleUrl_192 (dns : String → Bool) (proto : String)
    (hproto : proto = "https://192.168.1.1" ∨ proto = "http://192.168.1.1") :
    URLValidator.validateSingleUrl dns proto =
      .invalid ("IPs privados não são permitidos" ::
        (if dns "192.168.1.1" then [] else ["DNS não resolve"])) := by
  rcases hproto with h | h <;> subst h <;>
    cases hd : dns "192.168.1.1" <;>
      simp +decide [URLValidator.validateSingleUrl, hd,
        show URLValidator.parseSimpleUrl "https://192.168.1.1" =
          some ⟨"https:", "192.168.1.1"⟩ from by decide,
        show URLValidator.parseSimpleUrl "http://192.168.1.1" =
          some ⟨"http:", "192.168.1.1"⟩ from by decide]

/-- C5 (counterexample): the claim says `http://localhost` is rejected
with a private-IP error, but `_isPrivateIP` only ever fires on IPv4
literals; with a resolving DNS oracle the validator in fact accepts
the HTTPS candidate for `localhost`. -/
theorem urlValidator_localhost_counterexample :
    URLValidator.isPrivateIP "localhost" = false ∧
    URLValidator.validateAndNormalize (fun _ => true) "http://localhost" =
      .valid ⟨"https://localhost", "https:", "localhost"⟩ true := by
  constructor
  · decide
  · decide

/-- C5 (amended): `http://192.168.1.1` is rejected and every tried
candidate carries the private-IP error; `example.com` is accepted as
`https://example.com` when DNS resolves; but `http://localhost` is not
rejected — the private-IP check only applies to IPv4 literals, so when
DNS resolves it the validator accepts `https://localhost`. -/
theorem urlValidator_behaviour (dns : String → Bool) :
    ((URLValidator.validateAndNormalize dns
        "http://192.168.1.1").isValid = false ∧
      ∃ es, URLValidator.validateAndNormalize dns "http://192.168.1.1" =
          .invalid es ∧ es ≠ [] ∧
          ∀ e ∈ es, "IPs privados não são permitidos" ∈ e.2) ∧
    (dns "example.com" = true →
      URLValidator.validateAndNormalize dns "example.com" =
        .valid ⟨"https://example.com", "https:", "example.com"⟩ true) ∧
    (dns "localhost" = true →
      URLValidator.validateAndNormalize dns "http://localhost" =
        .valid ⟨"https://localhost", "https:", "localhost"⟩ true) := by
  refine ⟨?_, ?_, ?_⟩
  · have h1 := validateSingleUrl_192 dns "https://192.168.1.1" (Or.inl rfl)
    have h2 := validateSingleUrl_192 dns "http://192.168.1.1" (Or.inr rfl)
    have hv : URLValidator.validateAndNormalize dns "http://192.168.1.1" =
        .invalid
          [("https://192.168.1.1", "IPs privados não são permitidos" ::
              (if dns "192.168.1.1" then [] else ["DNS não resolve"])),
           ("http://192.168.1.1", "IPs privados não são permitidos" ::
              (if dns "192.168.1.1" then [] else ["DNS não resolve"]))] := by
      have hclean : strToLower (strTrim "http://192.168.1.1") =
          "http://192.168.1.1" := by decide
      have hvars : URLValidator.generateUrlVariations "http://192.168.1.1" =
          ["https://192.168.1.1", "http://192.168.1.1"] := by decide
      unfold URLValidator.validateAndNormalize
      rw [if_neg (by decide), hclean, hvars, URLValidator.tryVariations, h1,
        URLValidator.tryVariations, h2, URLValidator.tryVariations]
    rw [hv]
    refine ⟨rfl, _, rfl, by simp, ?_⟩
    intro e he
    simp only [List.mem_cons, List.not_mem_nil, or_false] at he
    rcases he with rfl | rfl <;> exact List.mem_cons_self _ _
  · intro h
    have hvsu : URLValidator.validateSingleUrl dns "https://example.com" =
        .valid ⟨"https://example.com", "https:", "example.com"⟩ := by
      simp +decide [URLValidator.validateSingleUrl, h,
        show URLValidator.parseSimpleUrl "https://example.com" =
          some ⟨"https:", "example.com"⟩ from by decide]
    have hclean : strToLower (strTrim "example.com") = "example.com" := by
      decide
    have hvars : URLValidator.generateUrlVariations "example.com" =
        ["https://example.com", "http://example.com",
         "https://www.example.com", "http://www.example.com"] := by decide
    unfold URLValidator.validateAndNormalize
    rw [if_neg (by decide), hclean, hvars, URLValidator.tryVariations, hvsu]
    rfl
  · intro h
    have hvsu : URLValidator.validateSingleUrl dns "https://localhost" =
        .valid ⟨"https://localhost", "https:", "localhost"⟩ := by
      simp +decide [URLValidator.validateSingleUrl, h,
        show URLValidator.parseSimpleUrl "https://localhost" =
          some ⟨"https:", "localhost"⟩ from by decide]
    have hclean : strToLower (strTrim "http://localhost") =
        "http://localhost" := by decide
    have hvars : URLValidator.generateUrlVariations "http://localhost" =
        ["https://localhost", "http://localhost"] := by decide
    unfold URLValidator.validateAndNormalize
    rw [if_neg (by decide), hclean, hvars, URLValidator.tryVariations, hvsu]
    rfl

/-- C5 witness: the two hypothesis-guarded parts of the amended
theorem at the everything-resolves DNS oracle. -/
theorem urlValidator_behaviour_witness :
    URLValidator.validateAndNormalize (fun _ => true) "example.com" =
      .valid ⟨"https://example.com", "https:", "example.com"⟩ true ∧
    URLValidator.validateAndNormalize (fun _ => true) "http://localhost" =
      .valid ⟨"https://localhost", "https:", "localhost"⟩ true :=
  ⟨(urlValidator_behaviour (fun _ => true)).2.1 rfl,
   (urlValidator_behaviour (fun _ => true)).2.2 rfl⟩

/-! ## Claim C6: error-classifier retryability -/

/-- C6 (counterexample): a connection-refused failure is categorized
as `connection`, and `isRecoverableError` marks the whole `connection`
category recoverable — so connection-refused IS retryable, contrary to
the claim. -/
theorem connectionRefused_retryable_counterexample :
    NetworkErrorHandler.isRecoverableError
      (NetworkErrorHandler.processNetworkError
        ⟨none, true, some "ECONNREFUSED",
          "connect ECONNREFUSED 93.184.216.34:443"⟩) = true := by decide

/-- C6 (amended): connection-refused, connection-reset and timeout
failures are all retryable (refused and reset share the `connection`
category); among classified HTTP response statuses, exactly 408, 429,
502, 503 and 504 are retryable.  (The message must not contain
`getaddrinfo`, which would reroute the error to the DNS category.) -/
theorem errorClassifier_retryability :
    (∀ m : String, strContains (strToLower m) "getaddrinfo" = false →
      NetworkErrorHandler.isRecoverableError
        (NetworkErrorHandler.processNetworkError
          ⟨none, true, some "ECONNREFUSED", m⟩) = true ∧
      NetworkErrorHandler.isRecoverableError
        (NetworkErrorHandler.processNetworkError
          ⟨none, true, some "ECONNRESET", m⟩) = true ∧
      NetworkErrorHandler.isRecoverableError
        (NetworkErrorHandler.processNetworkError
          ⟨none, true, some "ETIMEDOUT", m⟩) = true) ∧
    (∀ s : ℕ, 400 ≤ s → s < 600 →
      (NetworkErrorHandler.isRecoverableError
          (NetworkErrorHandler.processNetworkError ⟨some s, false, none, ""⟩) =
        true ↔ (s = 408 ∨ s = 429 ∨ s = 502 ∨ s = 503 ∨ s = 504))) := by
  constructor
  · intro m hm
    refine ⟨?_, ?_, ?_⟩ <;>
      · simp only [NetworkErrorHandler.processNetworkError,
          NetworkErrorHandler.handleRequestError,
          NetworkErrorHandler.isRecoverableError, hm]
        by_cases ht : strContains (strToLower m) "timeout" = true <;>
          simp [ht]
  · intro s h4 h6
    simp only [NetworkErrorHandler.processNetworkError,
      NetworkErrorHandler.handleHttpError,
      NetworkErrorHandler.isRecoverableError]
    by_cases h5 : s < 500
    · simp only [h4, h5, and_self, if_true, if_pos]
      simp [List.contains]
      omega
    · simp only [h4, h5, and_false, if_false]
      have : 500 ≤ s := by omega
      simp [this, List.contains]
      omega

/-- C6 witness: the amended theorem at a realistic refused message and
at status 503. -/
theorem errorClassifier_retryability_witness :
    (NetworkErrorHandler.isRecoverableError
      (NetworkErrorHandler.processNetworkError
        ⟨none, true, some "ECONNREFUSED", "connect ECONNREFUSED"⟩) = true ∧
     NetworkErrorHandler.isRecoverableError
      (NetworkErrorHandler.processNetworkError
        ⟨none, true, some "ECONNRESET", "connect ECONNREFUSED"⟩) = true ∧
     NetworkErrorHandler.isRecoverableError
      (NetworkErrorHandler.processNetworkError
        ⟨none, true, some "ETIMEDOUT", "connect ECONNREFUSED"⟩) = true) ∧
    (NetworkErrorHandler.isRecoverableError
        (NetworkErrorHandler.processNetworkError ⟨some 503, false, none, ""⟩) =
      true ↔ (503 = 408 ∨ 503 = 429 ∨ 503 = 502 ∨ 503 = 503 ∨ 503 = 504)) :=
  ⟨errorClassifier_retryability.1 "connect ECONNREFUSED" (by decide),
   errorClassifier_retryability.2 503 (by decide) (by decide)⟩

/-! ## Claim C7: certificate chain walk termination -/

/-- On the two-certificate cycle the length walk never leaves the set
of the two nodes, whatever the fuel. -/
theorem twoCycle_chainLength_none (fuel : ℕ) :
    ∀ i count, i = 0 ∨ i = 1 →
      SSLAnalyzer.chainLengthFuel twoCycleChain fuel i count = none := by
  induction fuel with
  | zero => intro i count _; rfl
  | succ n ih =>
    intro i count h
    have h0 : SSLAnalyzer.issuerLink twoCycleChain 0 = some 1 := by decide
    have h1 : SSLAnalyzer.issuerLink twoCycleChain 1 = some 0 := by decide
    rcases h with rfl | rfl
    · rw [SSLAnalyzer.chainLengthFuel, h0]
      exact ih 1 (count + 1) (Or.inr rfl)
    · rw [SSLAnalyzer.chainLengthFuel, h1]
      exact ih 0 (count + 1) (Or.inl rfl)

/-- Same for the completeness walk. -/
theorem twoCycle_chainComplete_none (fuel : ℕ) :
    ∀ i, i = 0 ∨ i = 1 →
      SSLAnalyzer.isChainCompleteFuel twoCycleChain fuel i = none := by
  induction fuel with
  | zero => intro i _; rfl
  | succ n ih =>
    intro i h
    have h0 : SSLAnalyzer.issuerLink twoCycleChain 0 = some 1 := by decide
    have h1 : SSLAnalyzer.issuerLink twoCycleChain 1 = some 0 := by decide
    rcases h with rfl | rfl
    · rw [SSLAnalyzer.isChainCompleteFuel, h0]
      exact ih 1 (Or.inr rfl)
    · rw [SSLAnalyzer.isChainCompleteFuel, h1]
      exact ih 0 (Or.inl rfl)

/-- C7 (counterexample): on an issuer cycle of length two, both the
chain-length computation and the chain-completeness check diverge —
the only stop conditions are a missing issuer object or a
self-referential one (`issuerCertificate === cert`), and there is no
maximum-depth guard, so the claim that the walk terminates on every
certificate graph is false. -/
theorem chainWalk_cycle_counterexample :
    SSLAnalyzer.chainLengthDiverges twoCycleChain 0 ∧
    SSLAnalyzer.chainCompleteDiverges twoCycleChain 0 :=
  ⟨fun fuel => twoCycle_chainLength_none fuel 0 1 (Or.inl rfl),
   fun fuel => twoCycle_chainComplete_none fuel 0 (Or.inl rfl)⟩

/-- C7 (amended): the walks stop only when the current certificate has
no issuer object or the issuer is the certificate itself; whenever the
issuer-link path from the start reaches such a terminal certificate
within `steps` links, both walks finish with fuel `steps + 1` — but
there is no depth bound on other graphs (an issuer cycle of length
greater than one never terminates). -/
theorem chainWalk_terminates_of_terminal (g : List Cert) (steps : ℕ) :
    ∀ i count, SSLAnalyzer.terminalWithin g steps i = true →
      (∃ k, SSLAnalyzer.chainLengthFuel g (steps + 1) i count = some k) ∧
      (∃ b, SSLAnalyzer.isChainCompleteFuel g (steps + 1) i = some b) := by
  induction steps with
  | zero =>
    intro i count h
    rw [SSLAnalyzer.terminalWithin, Option.isNone_iff_eq_none] at h
    rw [SSLAnalyzer.chainLengthFuel, SSLAnalyzer.isChainCompleteFuel, h]
    refine ⟨⟨count, rfl⟩, ?_⟩
    cases g.get? i <;> exact ⟨_, rfl⟩
  | succ n ih =>
    intro i count h
    rw [SSLAnalyzer.terminalWithin] at h
    cases hL : SSLAnalyzer.issuerLink g i with
    | none =>
      rw [SSLAnalyzer.chainLengthFuel, SSLAnalyzer.isChainCompleteFuel, hL]
      refine ⟨⟨count, rfl⟩, ?_⟩
      cases g.get? i <;> exact ⟨_, rfl⟩
    | some j =>
      rw [hL] at h
      rw [SSLAnalyzer.chainLengthFuel, SSLAnalyzer.isChainCompleteFuel, hL]
      exact ih j (count + 1) h

/-- C7 witness: the amended theorem at a single self-signed
certificate whose issuer pointer is itself (terminal in zero steps). -/
theorem chainWalk_terminates_witness :
    SSLAnalyzer.terminalWithin [⟨"CN=Root", "CN=Root", some 0⟩] 0 0 = true ∧
    ((∃ k, SSLAnalyzer.chainLengthFuel [⟨"CN=Root", "CN=Root", some 0⟩]
        1 0 1 = some k) ∧
     (∃ b, SSLAnalyzer.isChainCompleteFuel [⟨"CN=Root", "CN=Root", some 0⟩]
        1 0 = some b)) :=
  ⟨by decide,
   chainWalk_terminates_of_terminal [⟨"CN=Root", "CN=Root", some 0⟩] 0 0 1
     (by decide)⟩

/-! ## Claim C8: the retry policy -/

/-- C8: every fetch makes at most 3 attempts; the delay awaited before
retry number `k` is `k × 1000` ms (so the delay list for `m` attempts
is `[2000, …, m × 1000]`); and no retry follows an attempt that failed
with a 4xx response other than 408 or 429. -/
theorem retryPolicy (attempts : ℕ → Except NetFailure ℕ) :
    (HttpClient.makeRequestWithRetry attempts).attemptsMade ≤ 3 ∧
    (HttpClient.makeRequestWithRetry attempts).delaysMs =
      (List.range
        ((HttpClient.makeRequestWithRetry attempts).attemptsMade - 1)).map
        (fun j => (j + 2) * 1000) ∧
    (∀ k e, 1 ≤ k →
      k < (HttpClient.makeRequestWithRetry attempts).attemptsMade →
      attempts k = .error e →
      HttpClient.isNonRetryableError e = false) := by
  unfold HttpClient.makeRequestWithRetry
  cases h1 : attempts 1 with
  | ok r1 =>
    have htr : HttpClient.retryLoop attempts ⟨none⟩ 3 1 =
        ⟨1, [], .ok r1⟩ := by
      simp [HttpClient.retryLoop, h1]
    rw [htr]
    dsimp only
    exact ⟨by norm_num, by rfl, fun k e hk1 hk2 _ => by omega⟩
  | error e1 =>
    cases hn1 : HttpClient.isNonRetryableError e1 with
    | true =>
      have htr : HttpClient.retryLoop attempts ⟨none⟩ 3 1 =
          ⟨1, [], .error e1⟩ := by
        simp [HttpClient.retryLoop, h1, hn1]
      rw [htr]
      dsimp only
      exact ⟨by norm_num, by rfl, fun k e hk1 hk2 _ => by omega⟩
    | false =>
      cases h2 : attempts 2 with
      | ok r2 =>
        have htr : HttpClient.retryLoop attempts ⟨none⟩ 3 1 =
            ⟨2, [2000], .ok r2⟩ := by
          simp [HttpClient.retryLoop, h1, hn1, h2]
        rw [htr]
        dsimp only
        refine ⟨by norm_num, by decide, ?_⟩
        intro k e hk1 hk2 he
        have hk : k = 1 := by omega
        subst hk
        rw [h1] at he
        injection he with h
        subst h
        exact hn1
      | error e2 =>
        cases hn2 : HttpClient.isNonRetryableError e2 with
        | true =>
          have htr : HttpClient.retryLoop attempts ⟨none⟩ 3 1 =
              ⟨2, [2000], .error e2⟩ := by
            simp [HttpClient.retryLoop, h1, hn1, h2, hn2]
          rw [htr]
          dsimp only
          refine ⟨by norm_num, by decide, ?_⟩
          intro k e hk1 hk2 he
          have hk : k = 1 := by omega
          subst hk
          rw [h1] at he
          injection he with h
          subst h
          exact hn1
        | false =>
          cases h3 : attempts 3 with
          | ok r3 =>
            have htr : HttpClient.retryLoop attempts ⟨none⟩ 3 1 =
                ⟨3, [2000, 3000], .ok r3⟩ := by
              simp [HttpClient.retryLoop, h1, hn1, h2, hn2, h3]
            rw [htr]
            dsimp only
            refine ⟨by norm_num, by decide, ?_⟩
            intro k e hk1 hk2 he
            have hk : k = 1 ∨ k = 2 := by omega
            rcases hk with rfl | rfl
            · rw [h1] at he; injection he with h; subst h; exact hn1
            · rw [h2] at he; injection he with h; subst h; exact hn2
          | error e3 =>
            cases hn3 : HttpClient.isNonRetryableError e3 with
            | true =>
              have htr : HttpClient.retryLoop attempts ⟨none⟩ 3 1 =
                  ⟨3, [2000, 3000], .error e3⟩ := by
                simp [HttpClient.retryLoop, h1, hn1, h2, hn2, h3, hn3]
              rw [htr]
              dsimp only
              refine ⟨by norm_num, by decide, ?_⟩
              intro k e hk1 hk2 he
              have hk : k = 1 ∨ k = 2 := by omega
              rcases hk with rfl | rfl
              · rw [h1] at he; injection he with h; subst h; exact hn1
              · rw [h2] at he; injection he with h; subst h; exact hn2
            | false =>
              have htr : HttpClient.retryLoop attempts ⟨none⟩ 3 1 =
                  ⟨3, [2000, 3000], .error e3⟩ := by
                simp [HttpClient.retryLoop, h1, hn1, h2, hn2, h3, hn3]
              rw [htr]
              dsimp only
              refine ⟨by norm_num, by decide, ?_⟩
              intro k e hk1 hk2 he
              have hk : k = 1 ∨ k = 2 := by omega
              rcases hk with rfl | rfl
              · rw [h1] at he; injection he with h; subst h; exact hn1
              · rw [h2] at he; injection he with h; subst h; exact hn2

/-- C8 witness: an oracle whose first attempt fails with a retryable
500 and whose second succeeds — two attempts, one 2000 ms delay, and
the non-retry clause applied to the first failure. -/
theorem retryPolicy_witness :
    (HttpClient.makeRequestWithRetry
      (fun n => if n = 1 then .error ⟨some 500⟩ else .ok 200)).attemptsMade
        ≤ 3 ∧
    (HttpClient.makeRequestWithRetry
      (fun n => if n = 1 then .error ⟨some 500⟩ else .ok 200)).delaysMs =
      (List.range ((HttpClient.makeRequestWithRetry
        (fun n => if n = 1 then .error ⟨some 500⟩ else .ok 200)).attemptsMade
          - 1)).map (fun j => (j + 2) * 1000) ∧
    HttpClient.isNonRetryableError ⟨some 500⟩ = false :=
  ⟨(retryPolicy (fun n => if n = 1 then .error ⟨some 500⟩ else .ok 200)).1,
   (retryPolicy (fun n => if n = 1 then .error ⟨some 500⟩ else .ok 200)).2.1,
   (retryPolicy (fun n => if n = 1 then .error ⟨some 500⟩ else .ok 200)).2.2
     1 ⟨some 500⟩ (by decide) (by decide) rfl⟩

end SafeCookie
